import Mathlib

/-!
# Verification of the scenario-creation orchestration subsystem

Shallow embedding of the Operation/ServiceRunner orchestration of the
Rural-Road-Accessibility backend, centred on the scenario-creation route
(`app/routes/scenarios--create.js`).

The persistence-backed `Operation` handle (`app/utils/operation.js`) and the
`ServiceRunner` (`app/utils/service-runner.js`) are consumed by the route but
their sources are not part of the analysed tree; those parts are modelled from
the specification (see the doc comments starting with `Modelled from the
spec:`).  Everything else is translated directly from the route source.

The database is modelled as an explicit state value threaded through the
orchestration functions; promise chains become sequenced pure steps, a thrown
error becomes an `Except`-style error value carried next to the state reached
at the moment of the throw (JavaScript does not roll back earlier inserts).
-/

/-- A row of the `projects` table (only the columns the route reads). -/
structure ProjectRow where
  id : Nat
  status : String
deriving DecidableEq, Repr

/-- A row of the `scenarios` table (only the columns the route touches). -/
structure ScenarioRow where
  id : Nat
  project_id : Nat
  name : String
  description : String
  status : String
  master : Bool
deriving DecidableEq, Repr

/-- A row of the `scenarios_settings` table. -/
structure SettingRow where
  scenario_id : Nat
  key : String
  value : String
deriving DecidableEq, Repr

/-- Modelled from the spec: the identity part of a persisted Operation —
`id`, `type`, `project_id`, `scenario_id` (spec §3, Operation). -/
structure OperationRow where
  id : Nat
  opType : String
  project_id : Nat
  scenario_id : Nat
deriving DecidableEq, Repr

/-- The structured JSON payload of an operation log entry: the route writes
either `{message: ...}` (on start) or `{error: ...}` (on failure); `empty`
stands for an entry carrying no payload. -/
inductive LogData where
  | empty : LogData
  | message (s : String) : LogData
  | errorInfo (s : String) : LogData
deriving DecidableEq, Repr

/-- Modelled from the spec: an operation log entry — `operation_id`, `event`,
`data`; `created_at` ordering is the position in the state's log list
(spec §3, Operation Log Entry). -/
structure OpLogRow where
  operation_id : Nat
  event : String
  data : LogData
deriving DecidableEq, Repr

/-- The persistent state reachable from the route: the four tables it touches
plus the auto-increment counters.  Lists are kept in insertion order, which is
also `created_at` order (spec §6: montonic timestamp column). -/
structure DBState where
  projects : List ProjectRow
  scenarios : List ScenarioRow
  scenariosSettings : List SettingRow
  operations : List OperationRow
  operationsLogs : List OpLogRow
  nextScenarioId : Nat
  nextOperationId : Nat
deriving DecidableEq, Repr

/-- The state with empty tables. -/
def emptyState : DBState := ⟨[], [], [], [], [], 0, 0⟩

deriving instance DecidableEq for Except

/-- An error surfaced by the underlying database driver on insert; the route
dispatches on its `constraint` field. -/
structure DBError where
  constraint : String
  msg : String
deriving DecidableEq, Repr

/-- The errors of `app/utils/errors.js` that the route can raise, plus the
two error shapes coming from below it (`notFound` from the Operation loads,
modelled from the spec, and `dbErr` for storage failures that propagate
unchanged). -/
inductive AppError where
  | projectNotFound : AppError
  | scenarioNotFound (msg : String) : AppError
  | dataConflict (msg : String) : AppError
  | notFound (msg : String) : AppError
  | storage (msg : String) : AppError
  | dbErr (e : DBError) : AppError
deriving DecidableEq, Repr

/-- The `.message` property of a raised error, as used by the route's
`err.message.match(...)` checks. -/
def AppError.message : AppError → String
  | .projectNotFound => "Project not found"
  | .scenarioNotFound m => m
  | .dataConflict m => m
  | .notFound m => m
  | .storage m => m
  | .dbErr e => e.msg

/-- Is `needle` a prefix of `hay` (on character lists)? -/
def charPrefix : List Char → List Char → Bool
  | [], _ => true
  | _ :: _, [] => false
  | c :: cs, d :: ds => c == d && charPrefix cs ds

/-- Does `hay` contain `needle` as a contiguous substring? -/
def charSub (needle : List Char) : List Char → Bool
  | [] => needle.isEmpty
  | d :: ds => charPrefix needle (d :: ds) || charSub needle ds

/-- Embedding of the JavaScript `hay.match(needle)` truthiness test for a
plain-text pattern: substring containment. -/
def containsSub (needle hay : String) : Bool :=
  charSub needle.data hay.data

namespace Operation

/-- Modelled from the spec: the operations matching a `(type, projectId,
scenarioId)` triple, in creation order (spec §4.1, `loadByData`; the list is
insertion-ordered, so "most recent" is the last element). -/
def operationsFor (st : DBState) (t : String) (projId scId : Nat) : List OperationRow :=
  st.operations.filter fun o => o.opType == t && o.project_id == projId && o.scenario_id == scId

/-- Modelled from the spec: the append-only log of one operation, in
`created_at` order (spec §3). -/
def logsOf (st : DBState) (opId : Nat) : List OpLogRow :=
  st.operationsLogs.filter fun l => l.operation_id == opId

/-- Modelled from the spec: a terminal event is a `finish`-equivalent or
`error` entry (spec §3 invariant, glossary "Terminal event"). -/
def isTerminalEvent (e : String) : Bool :=
  e == "finish" || e == "error"

/-- Modelled from the spec: `isCompleted()` — true if a terminal event has
been logged (spec §4.1). -/
def isCompletedL (logs : List OpLogRow) : Bool :=
  logs.any fun l => isTerminalEvent l.event

/-- Modelled from the spec: `isStarted()` — true if the log contains a
`start` event and no terminal event yet (spec §4.1). -/
def isStartedL (logs : List OpLogRow) : Bool :=
  (logs.any fun l => l.event == "start") && !(isCompletedL logs)

/-- Modelled from the spec: `loadByData(type, projectId, scenarioId)` finds
the most recent Operation matching the triple and fails with `NotFoundError`
if none exists (spec §4.1). -/
def loadByData (st : DBState) (t : String) (projId scId : Nat) :
    Except AppError OperationRow :=
  match (operationsFor st t projId scId).getLast? with
  | some o => .ok o
  | none => .error (.notFound "Operation does not exist.")

/-- Modelled from the spec: `loadById(id)` fetches an Operation by identity,
failing with `NotFoundError` if absent (spec §4.1). -/
def loadById (st : DBState) (opId : Nat) : Except AppError OperationRow :=
  match st.operations.find? (fun o => o.id == opId) with
  | some o => .ok o
  | none => .error (.notFound "Operation does not exist.")

/-- Modelled from the spec: `log(event, data)` appends a log entry to the
loaded operation (spec §4.1). -/
def opLog (st : DBState) (opId : Nat) (event : String) (data : LogData) : DBState :=
  { st with operationsLogs := st.operationsLogs ++ [⟨opId, event, data⟩] }

/-- Modelled from the spec: `start(type, projectId, scenarioId)` creates a new
persisted identity plus a `start` log entry, the id being assigned on first
persistence (spec §3 lifecycle, §4.1).  Returns the updated state and the new
operation id. -/
def opStart (st : DBState) (t : String) (projId scId : Nat) : DBState × Nat :=
  let id := st.nextOperationId
  let st' : DBState :=
    { st with
      operations := st.operations ++ [⟨id, t, projId, scId⟩]
      nextOperationId := id + 1 }
  (opLog st' id "start" .empty, id)

/-- Modelled from the spec: `finish(event, data)` appends the terminal entry;
after it `isCompleted()` is true because status is derived from the log
(spec §4.1, §9). -/
def opFinish (st : DBState) (opId : Nat) (event : String) (data : LogData) : DBState :=
  opLog st opId event data

end Operation

open Operation

/-- The conflict/recovery decision of `startOperation`
(`scenarios--create.js:280-289`): on a loaded operation, a started one is a
`DataConflictError`; on a load error, a message matching `/not exist/` is
recovered ("if the operation doesn't exist is not a problem"), anything else
is re-thrown. -/
def startOperationCheck (st : DBState) (loadRes : Except AppError OperationRow) :
    Option AppError :=
  match loadRes with
  | .ok op =>
      if isStartedL (logsOf st op.id) then
        some (.dataConflict "Scenario creation already in progress")
      else none
  | .error e =>
      if containsSub "not exist" e.message then none else some e

/-- The start branch of `startOperation` (`scenarios--create.js:290-294`):
`op.start('scenario-create', projId, scId)` then
`op.log('start', {message: 'Operation started'})`. -/
def startOperationCont (st : DBState) (projId scId : Nat) : DBState × Nat :=
  let pr := opStart st "scenario-create" projId scId
  (opLog pr.1 pr.2 "start" (.message "Operation started"), pr.2)

/-- `startOperation` with the result of the `loadByData` round-trip injected,
so that the behaviour on each possible load outcome can be stated. -/
def startOperationFromLoad (st : DBState) (projId scId : Nat)
    (loadRes : Except AppError OperationRow) : DBState × Except AppError Nat :=
  match startOperationCheck st loadRes with
  | some e => (st, .error e)
  | none =>
      let pr := startOperationCont st projId scId
      (pr.1, .ok pr.2)

/-- `startOperation(projId, scId)` of `scenarios--create.js:278-295`. -/
def startOperation (st : DBState) (projId scId : Nat) : DBState × Except AppError Nat :=
  startOperationFromLoad st projId scId (loadByData st "scenario-create" projId scId)

/-- All log rows mention operation ids strictly below the auto-increment
counter — true of any state actually produced by the store. -/
def LogsFresh (st : DBState) : Prop :=
  ∀ l ∈ st.operationsLogs, l.operation_id < st.nextOperationId

-- Sanity examples while building (concrete evaluation of the model).
example : (startOperation emptyState 1 1).2 = .ok 0 := by decide
example : containsSub "not exist" "Operation does not exist." = true := by decide
example : containsSub "not exist" "disk full" = false := by decide

/-! ## Decimal rendering (embedding of the JavaScript template `(n)` suffix) -/

/-- Little-endian decimal digits of `n`, with structural fuel so the
definition evaluates in the kernel.  `toDecimalAux n n` is the digit list. -/
def toDecimalAux : Nat → Nat → List Nat
  | 0, _ => []
  | _ + 1, 0 => []
  | fuel + 1, n + 1 => (n + 1) % 10 :: toDecimalAux fuel ((n + 1) / 10)

/-- Little-endian decimal digits of `n` (empty for 0). -/
def natDigits (n : Nat) : List Nat := toDecimalAux n n

/-- Value of a little-endian decimal digit list. -/
def fromDigits : List Nat → Nat
  | [] => 0
  | d :: ds => d + 10 * fromDigits ds

/-- Decimal rendering of a natural number, as JavaScript template
interpolation renders it. -/
def natToString (n : Nat) : String :=
  if n = 0 then "0" else String.mk ((natDigits n).reverse.map Nat.digitChar)

/-! ## The scenario-creation route (`app/routes/scenarios--create.js`) -/

/-- The validated payload the route handler receives (after `parseFormData`
and the Joi validation); the source-scenario/catalog fields are meaningful
only for the matching `roadNetworkSource`/`poiSource` values, as enforced by
the Joi schema. -/
structure CreatePayload where
  name : String
  description : Option String
  rnSource : String
  rnSourceScenarioId : Nat
  rnSourceWbCatalogOption : String
  poiSource : String
  poiSourceScenarioId : Nat
deriving DecidableEq, Repr

/-- The task-specific fields accumulated into the Service Runner payload
(`scenarios--create.js:107-131`). -/
structure ServiceData where
  rnSource : String
  poiSource : String
  rnSourceScenarioId : Option Nat
  rnSourceWbCatalogOption : Option String
  roadNetworkFile : Option String
  poiSourceScenarioId : Option Nat
deriving DecidableEq, Repr

/-- One constructed-and-started Service Runner: task name plus the payload
`{projId, scId, opId, ...data}` (`scenarios--create.js:303-307`). -/
structure RunnerInvocation where
  taskName : String
  projId : Nat
  scId : Nat
  opId : Nat
  data : ServiceData
deriving DecidableEq, Repr

/-- What the route finally replies on success: the inserted scenario row with
the attached `data = {res_gen_at: 0, rn_updated_at: 0}` object and the empty
`admin_areas` array (`scenarios--create.js:93-100`). -/
structure ScenarioReply where
  row : ScenarioRow
  res_gen_at : Nat
  rn_updated_at : Nat
  admin_areas : List Nat
deriving DecidableEq, Repr

/-- The outcome of one handler run: the state it left behind, the value or
error replied, the id of the Operation it started (`op.getId()`), and the
Service Runner it dispatched, if any. -/
structure HandlerOutcome where
  state : DBState
  result : Except AppError ScenarioReply
  opId : Option Nat
  dispatched : Option RunnerInvocation
deriving DecidableEq, Repr

/-- The scenario insert (`scenarios--create.js:45-65`): fails with the
`scenarios_project_id_name_unique` constraint when the project already has a
scenario of that name, otherwise inserts the row with `status: 'pending'`,
`master: false` and `description || ''`. -/
def insertScenario (st : DBState) (projId : Nat) (p : CreatePayload) :
    Except DBError (DBState × ScenarioRow) :=
  if st.scenarios.any (fun s => s.project_id == projId && s.name == p.name) then
    .error ⟨"scenarios_project_id_name_unique",
            "duplicate key value violates unique constraint"⟩
  else
    let sc : ScenarioRow :=
      ⟨st.nextScenarioId, projId, p.name, p.description.getD "", "pending", false⟩
    .ok ({ st with
            scenarios := st.scenarios ++ [sc]
            nextScenarioId := st.nextScenarioId + 1 }, sc)

/-- The `.catch` around the insert (`scenarios--create.js:60-65`): a
`scenarios_project_id_name_unique` violation becomes a `DataConflictError`,
every other insert error is re-thrown unchanged. -/
def mapInsertErr (name : String) (e : DBError) : AppError :=
  if e.constraint == "scenarios_project_id_name_unique" then
    .dataConflict ("Scenario name already in use for this project: " ++ name)
  else .dbErr e

/-- The three `scenarios_settings` rows batch-inserted for a new scenario
(`scenarios--create.js:68-90`). -/
def settingsRows (scId : Nat) : List SettingRow :=
  [⟨scId, "res_gen_at", "0"⟩, ⟨scId, "rn_updated_at", "0"⟩, ⟨scId, "admin_areas", "[]"⟩]

/-- `db.batchInsert('scenarios_settings', ...)` for the new scenario. -/
def insertSettings (st : DBState) (scId : Nat) : DBState :=
  { st with scenariosSettings := st.scenariosSettings ++ settingsRows scId }

/-- The task payload assembled by the `action` chain
(`scenarios--create.js:108-128`); `uploadName` is the S3 object name produced
by `handleRoadNetworkUpload` when `roadNetworkSource` is `'new'`. -/
def buildServiceData (p : CreatePayload) (uploadName : String) : ServiceData :=
  let d0 : ServiceData := ⟨p.rnSource, p.poiSource, none, none, none, none⟩
  let d1 :=
    if p.rnSource == "new" then { d0 with roadNetworkFile := some uploadName }
    else if p.rnSource == "clone" then
      { d0 with rnSourceScenarioId := some p.rnSourceScenarioId }
    else if p.rnSource == "wbcatalog" then
      { d0 with rnSourceWbCatalogOption := some p.rnSourceWbCatalogOption }
    else d0
  if p.poiSource == "clone" then
    { d1 with poiSourceScenarioId := some p.poiSourceScenarioId }
  else d1

/-- `createScenario(projId, scId, opId, data)` of
`scenarios--create.js:297-327`: in test mode (`process.env.DS_ENV === 'test'`,
passed here as the explicit `testMode` flag) it returns without constructing
a Service Runner; otherwise it constructs and starts
`ServiceRunner('scenario-create', {projId, scId, opId, ...data})`.  The value
returned to the orchestrator is the dispatched runner, not the job's
outcome. -/
def createScenario (testMode : Bool) (projId scId opId : Nat) (data : ServiceData) :
    Option RunnerInvocation :=
  if testMode then none
  else some ⟨"scenario-create", projId, scId, opId, data⟩

/-- The `service.on('complete', err => ...)` handler registered by
`createScenario` (`scenarios--create.js:309-322`): on a non-null error it
reloads the Operation by id and, only if it is not already completed, calls
`op.finish('error', {error: err.message})`. -/
def completionHandler (opId : Nat) (err : Option String) (st : DBState) : DBState :=
  match err with
  | none => st
  | some msg =>
      match loadById st opId with
      | .error _ => st
      | .ok op =>
          if isCompletedL (logsOf st op.id) then st
          else opFinish st op.id "error" (.errorInfo msg)

/-- The tail of the handler once the precondition checks passed
(`scenarios--create.js:45-133`): insert the scenario and its settings, start
the Operation, dispatch the Service Runner, reply the scenario. -/
def handlerStep2 (testMode : Bool) (st : DBState) (projId : Nat) (p : CreatePayload)
    (uploadName : String) : HandlerOutcome :=
  match insertScenario st projId p with
  | .error e => ⟨st, .error (mapInsertErr p.name e), none, none⟩
  | .ok pr =>
      let st2 := insertSettings pr.1 pr.2.id
      match startOperation st2 projId pr.2.id with
      | (st3, .error e) => ⟨st3, .error e, none, none⟩
      | (st3, .ok opId) =>
          ⟨st3, .ok ⟨pr.2, 0, 0, []⟩, some opId,
           createScenario testMode projId pr.2.id opId (buildServiceData p uploadName)⟩

/-- `handler(params, payload, reply)` of `scenarios--create.js:14-150`:
project existence and status checks, clone-source check, then
`handlerStep2`. -/
def handler (testMode : Bool) (st : DBState) (projId : Nat) (p : CreatePayload)
    (uploadName : String) : HandlerOutcome :=
  match st.projects.find? (fun q => q.id == projId) with
  | none => ⟨st, .error .projectNotFound, none, none⟩
  | some pr =>
      if pr.status == "pending" then
        ⟨st, .error (.dataConflict "Project setup not completed"), none, none⟩
      else if p.rnSource == "clone"
          && !(st.scenarios.any fun s =>
                s.id == p.rnSourceScenarioId && s.project_id == projId) then
        ⟨st, .error (.scenarioNotFound "Source scenario for cloning not found"), none, none⟩
      else handlerStep2 testMode st projId p uploadName

/-- The rendered candidate name `` `${name} (${no})` `` of the duplicate
route's `findName` (`scenarios--create.js:236`). -/
def dupName (name : String) (no : Nat) : String :=
  name ++ " (" ++ natToString no ++ ")"

/-- Does some scenario of the project already use this exact name?
(the `db('scenarios')...where('name', n)` probe of `findName`). -/
def nameTaken (st : DBState) (projId : Nat) (nm : String) : Bool :=
  st.scenarios.any fun s => s.project_id == projId && s.name == nm

/-- The recursive `fn` of `findName` (`scenarios--create.js:235-243`), with
structural fuel standing in for the unbounded recursion; the fuel chosen in
`findName` is provably sufficient. -/
def findNameAux (st : DBState) (projId : Nat) (nm : String) : Nat → Nat → Nat
  | 0, no => no
  | fuel + 1, no =>
      if nameTaken st projId (dupName nm no) then findNameAux st projId nm fuel (no + 1)
      else no

/-- `findName(name)` of the duplicate route (`scenarios--create.js:234-245`):
the first available `` `${name} (${no})` `` starting from `no = 2`. -/
def findName (st : DBState) (projId : Nat) (nm : String) : String :=
  dupName nm (findNameAux st projId nm (st.scenarios.length + 1) 2)

/-- The `/projects/{projId}/scenarios/{scId}/duplicate` route handler
(`scenarios--create.js:231-274`): load the source scenario's name and
description (404 when absent), find the next available name, and delegate to
the create handler with a clone payload. -/
def duplicateHandler (testMode : Bool) (st : DBState) (projId scId : Nat) :
    HandlerOutcome :=
  match st.scenarios.find? (fun s => s.id == scId && s.project_id == projId) with
  | none => ⟨st, .error (.scenarioNotFound "Scenario not found"), none, none⟩
  | some src =>
      handler testMode st projId
        ⟨findName st projId src.name, some src.description, "clone", scId, "", "clone", scId⟩
        ""

/-- Apply the dispatched runner's completion signal (if a runner was
dispatched) to the state the handler left behind. -/
def runCompletion (o : HandlerOutcome) (err : Option String) : DBState :=
  match o.dispatched with
  | none => o.state
  | some inv => completionHandler inv.opId err o.state

/-- Whole-request semantics: the handler computes the reply and dispatches the
job; the job's completion signal (`jobErr`) is delivered only afterwards.
The pair is (final state, the value replied to the caller). -/
def processCreate (testMode : Bool) (st : DBState) (projId : Nat) (p : CreatePayload)
    (uploadName : String) (jobErr : Option String) :
    DBState × Except AppError ScenarioReply :=
  let o := handler testMode st projId p uploadName
  (runCompletion o jobErr, o.result)

-- Sanity examples for the handler model.
example :
    (handler false emptyState 1 ⟨"S1", none, "osm", 0, "", "clone", 1⟩ "").result
      = .error .projectNotFound := by decide

example :
    (handler false ⟨[⟨1, "active"⟩], [], [], [], [], 5, 0⟩ 1
      ⟨"S1", none, "osm", 0, "", "clone", 1⟩ "").result
      = .ok ⟨⟨5, 1, "S1", "", "pending", false⟩, 0, 0, []⟩ := by decide

example : natToString 12 = "12" := by decide
example : dupName "Main" 2 = "Main (2)" := by decide

/-! ## Helper lemmas about the operation store -/

/-- The two log entries `startOperation` writes for a fresh operation. -/
def startEntries (opId : Nat) : List OpLogRow :=
  [⟨opId, "start", .empty⟩, ⟨opId, "start", .message "Operation started"⟩]

theorem startOperationCont_operations (st : DBState) (p s : Nat) :
    (startOperationCont st p s).1.operations
      = st.operations ++ [⟨st.nextOperationId, "scenario-create", p, s⟩] := by
  simp [startOperationCont, opStart, opLog]

theorem startOperationCont_logs (st : DBState) (p s : Nat) :
    (startOperationCont st p s).1.operationsLogs
      = st.operationsLogs ++ startEntries st.nextOperationId := by
  simp [startOperationCont, opStart, opLog, startEntries]

theorem startOperationCont_nextOp (st : DBState) (p s : Nat) :
    (startOperationCont st p s).1.nextOperationId = st.nextOperationId + 1 := by
  simp [startOperationCont, opStart, opLog]

theorem startOperationCont_id (st : DBState) (p s : Nat) :
    (startOperationCont st p s).2 = st.nextOperationId := by
  simp [startOperationCont, opStart, opLog]

/-- Stale log rows never mention the fresh id, so the fresh operation's log
is exactly the two `start` entries. -/
theorem logsOf_fresh (st : DBState) (hfresh : LogsFresh st) (p s : Nat) :
    logsOf (startOperationCont st p s).1 st.nextOperationId
      = startEntries st.nextOperationId := by
  have hnil : st.operationsLogs.filter
      (fun l => l.operation_id == st.nextOperationId) = [] := by
    refine List.filter_eq_nil_iff.mpr fun l hl => ?_
    have := hfresh l hl
    simp [Nat.ne_of_lt this]
  simp [logsOf, startOperationCont_logs, List.filter_append, hnil, startEntries]

/-- After a successful `startOperation`, the most recent operation of the
triple is the operation it just created. -/
theorem loadByData_after_start (st : DBState) (p s : Nat) :
    loadByData (startOperationCont st p s).1 "scenario-create" p s
      = .ok ⟨st.nextOperationId, "scenario-create", p, s⟩ := by
  have hfor : operationsFor (startOperationCont st p s).1 "scenario-create" p s
      = operationsFor st "scenario-create" p s
        ++ [⟨st.nextOperationId, "scenario-create", p, s⟩] := by
    simp [operationsFor, startOperationCont_operations, List.filter_append]
  simp [loadByData, hfor, List.getLast?_concat]

/-- C1: with a started (uncompleted) most recent Operation for
`('scenario-create', projId, scId)`, `startOperation` fails with
`DataConflictError('Scenario creation already in progress')` and writes
nothing — the state is returned unchanged; consequently a second serialized
invocation right after a successful first one reports exactly that
conflict. -/
theorem startOperation_conflict_and_serialized (st : DBState) (p s : Nat) :
    (∀ op, loadByData st "scenario-create" p s = .ok op →
      isStartedL (logsOf st op.id) = true →
      startOperation st p s =
        (st, .error (.dataConflict "Scenario creation already in progress"))) ∧
    (LogsFresh st → ∀ st1 oid, startOperation st p s = (st1, .ok oid) →
      (startOperation st1 p s).2 =
        .error (.dataConflict "Scenario creation already in progress")) := by
  constructor
  · intro op hload hstarted
    simp [startOperation, startOperationFromLoad, startOperationCheck, hload, hstarted]
  · intro hfresh st1 oid h
    cases hc : startOperationCheck st (loadByData st "scenario-create" p s) with
    | some e => simp [startOperation, startOperationFromLoad, hc] at h
    | none =>
        simp [startOperation, startOperationFromLoad, hc] at h
        obtain ⟨hst1, -⟩ := h
        have hload1 := loadByData_after_start st p s
        have hlogs1 := logsOf_fresh st hfresh p s
        rw [hst1] at hload1 hlogs1
        simp [startOperation, startOperationFromLoad, startOperationCheck, hload1,
          hlogs1, isStartedL, isCompletedL, isTerminalEvent, startEntries]

/-- A state holding one started, uncompleted operation for `(1, 1)`. -/
def conflictState : DBState :=
  ⟨[], [], [], [⟨0, "scenario-create", 1, 1⟩], startEntries 0, 0, 1⟩

theorem startOperation_conflict_and_serialized_witness :
    startOperation conflictState 1 1 =
      (conflictState, .error (.dataConflict "Scenario creation already in progress"))
    ∧ (startOperation (startOperation emptyState 1 1).1 1 1).2 =
      .error (.dataConflict "Scenario creation already in progress") :=
  ⟨(startOperation_conflict_and_serialized conflictState 1 1).1
      ⟨0, "scenario-create", 1, 1⟩ (by decide) (by decide),
   (startOperation_conflict_and_serialized emptyState 1 1).2
      (by intro l hl; simp [emptyState] at hl) (startOperation emptyState 1 1).1 0 (by decide)⟩

/-- C2: on a completion signal carrying an error, if the Operation reloaded
by id is not yet completed, exactly one terminal `error` entry carrying the
error message is appended and `isCompleted()` becomes true; if it is already
completed, the state is left untouched and the error is dropped. -/
theorem completionHandler_error_exactly_once (st : DBState) (oid : Nat) (msg : String)
    (op : OperationRow) (hload : loadById st oid = .ok op) :
    (isCompletedL (logsOf st oid) = false →
      logsOf (completionHandler oid (some msg) st) oid
        = logsOf st oid ++ [⟨oid, "error", .errorInfo msg⟩]
      ∧ isCompletedL (logsOf (completionHandler oid (some msg) st) oid) = true)
    ∧ (isCompletedL (logsOf st oid) = true →
        completionHandler oid (some msg) st = st) := by
  have hid : op.id = oid := by
    unfold loadById at hload
    cases hf : st.operations.find? (fun o => o.id == oid) with
    | none => simp [hf] at hload
    | some o =>
        simp [hf] at hload
        have := List.find?_some hf
        subst hload
        simpa using this
  constructor
  · intro hnc
    have hch : completionHandler oid (some msg) st
        = opFinish st oid "error" (.errorInfo msg) := by
      simp [completionHandler, hload, hid, hnc]
    rw [hch]
    refine ⟨by simp [opFinish, opLog, logsOf, List.filter_append], ?_⟩
    simp [opFinish, opLog, logsOf, List.filter_append, isCompletedL, isTerminalEvent]
  · intro hc
    simp [completionHandler, hload, hid, hc]

/-- A state whose only operation is already error-terminated. -/
def completedState : DBState :=
  ⟨[], [], [], [⟨0, "scenario-create", 1, 1⟩],
   startEntries 0 ++ [⟨0, "error", .errorInfo "boom"⟩], 0, 1⟩

theorem completionHandler_error_exactly_once_witness :
    (logsOf (completionHandler 0 (some "disk full") conflictState) 0
        = logsOf conflictState 0 ++ [⟨0, "error", .errorInfo "disk full"⟩]
      ∧ isCompletedL (logsOf (completionHandler 0 (some "disk full") conflictState) 0) = true)
    ∧ completionHandler 0 (some "disk full") completedState = completedState :=
  ⟨(completionHandler_error_exactly_once conflictState 0 "disk full"
      ⟨0, "scenario-create", 1, 1⟩ (by decide)).1 (by decide),
   (completionHandler_error_exactly_once completedState 0 "disk full"
      ⟨0, "scenario-create", 1, 1⟩ (by decide)).2 (by decide)⟩

/-- C4 counterexample: an error from the load that is *not* the
`NotFoundError` for a missing Operation — a storage failure whose message
happens to contain "not exist" — does **not** propagate unchanged: the
route's `err.message.match(/not exist/)` check swallows it and starts a new
Operation anyway. -/
theorem startOperation_other_error_not_propagated :
    (startOperationFromLoad emptyState 1 1
        (.error (.storage "relation operations does not exist"))).2
      ≠ .error (.storage "relation operations does not exist") := by decide

/-- C4 (amended): a missing Operation for the triple makes `startOperation`
proceed to start a new one, and more generally any load error whose message
contains "not exist" is treated as "no conflicting run"; an error whose
message does not contain "not exist" propagates unchanged. -/
theorem startOperation_notfound_recovered (st : DBState) (p s : Nat) (e : AppError) :
    (operationsFor st "scenario-create" p s = [] →
      startOperation st p s
        = ((startOperationCont st p s).1, .ok (startOperationCont st p s).2)) ∧
    (containsSub "not exist" e.message = true →
      startOperationFromLoad st p s (.error e)
        = ((startOperationCont st p s).1, .ok (startOperationCont st p s).2)) ∧
    (containsSub "not exist" e.message = false →
      startOperationFromLoad st p s (.error e) = (st, .error e)) := by
  refine ⟨fun h0 => ?_, fun hm => ?_, fun hm => ?_⟩
  · have hld : loadByData st "scenario-create" p s
        = .error (.notFound "Operation does not exist.") := by
      simp [loadByData, h0]
    simp [startOperation, startOperationFromLoad, startOperationCheck, hld,
      AppError.message,
      (by decide : containsSub "not exist" "Operation does not exist." = true)]
  · simp [startOperationFromLoad, startOperationCheck, hm]
  · simp [startOperationFromLoad, startOperationCheck, hm]

theorem startOperation_notfound_recovered_witness :
    startOperation emptyState 1 1
      = ((startOperationCont emptyState 1 1).1, .ok (startOperationCont emptyState 1 1).2)
    ∧ startOperationFromLoad emptyState 1 1
        (.error (.notFound "Operation does not exist."))
      = ((startOperationCont emptyState 1 1).1, .ok (startOperationCont emptyState 1 1).2)
    ∧ startOperationFromLoad emptyState 1 1 (.error (.storage "disk full"))
      = (emptyState, .error (.storage "disk full")) :=
  ⟨(startOperation_notfound_recovered emptyState 1 1
      (.notFound "Operation does not exist.")).1 (by decide),
   (startOperation_notfound_recovered emptyState 1 1
      (.notFound "Operation does not exist.")).2.1 (by decide),
   (startOperation_notfound_recovered emptyState 1 1
      (.storage "disk full")).2.2 (by decide)⟩

/-- C5 counterexample: a duplicate request against a state whose project does
not exist fails with `ScenarioNotFoundError`, not `ProjectNotFoundError` —
the duplicate route's source-scenario lookup runs first and finds nothing. -/
theorem duplicate_missing_project_not_projectNotFound :
    (duplicateHandler false emptyState 1 1).result
        = .error (.scenarioNotFound "Scenario not found")
    ∧ (duplicateHandler false emptyState 1 1).result ≠ .error .projectNotFound := by
  decide

/-- C5 (amended): for the create handler, a missing project fails with
`ProjectNotFoundError`, a `pending` project with
`DataConflictError('Project setup not completed')`, and a missing clone
source with `ScenarioNotFoundError`; for the duplicate route a missing source
scenario — in particular whenever the project itself is missing — fails with
`ScenarioNotFoundError` from the source lookup.  In every case the failure is
synchronous and the state is returned untouched: no scenario row inserted, no
Operation started, no runner dispatched. -/
theorem handler_precondition_failures (testMode : Bool) (st : DBState) (pid scId : Nat)
    (pl : CreatePayload) (un : String) :
    (st.projects.find? (fun q => q.id == pid) = none →
      handler testMode st pid pl un = ⟨st, .error .projectNotFound, none, none⟩) ∧
    (∀ pr, st.projects.find? (fun q => q.id == pid) = some pr →
      pr.status = "pending" →
      handler testMode st pid pl un
        = ⟨st, .error (.dataConflict "Project setup not completed"), none, none⟩) ∧
    (∀ pr, st.projects.find? (fun q => q.id == pid) = some pr →
      pr.status ≠ "pending" → pl.rnSource = "clone" →
      (st.scenarios.any fun s =>
          s.id == pl.rnSourceScenarioId && s.project_id == pid) = false →
      handler testMode st pid pl un
        = ⟨st, .error (.scenarioNotFound "Source scenario for cloning not found"),
           none, none⟩) ∧
    (st.scenarios.find? (fun s => s.id == scId && s.project_id == pid) = none →
      duplicateHandler testMode st pid scId
        = ⟨st, .error (.scenarioNotFound "Scenario not found"), none, none⟩) := by
  refine ⟨fun hf => ?_, fun pr hf hst => ?_, fun pr hf hst hcl hno => ?_, fun hf => ?_⟩
  · simp [handler, hf]
  · simp [handler, hf, hst]
  · simp [handler, hf, hst, hcl, hno]
  · simp [duplicateHandler, hf]

/-- Project 1 exists and is past setup; no scenarios yet. -/
def activeProjectState : DBState := ⟨[⟨1, "active"⟩], [], [], [], [], 5, 0⟩

/-- Project 1 exists but is still `pending`. -/
def pendingProjectState : DBState := ⟨[⟨1, "pending"⟩], [], [], [], [], 5, 0⟩

/-- An `osm`-sourced payload named `S1`. -/
def osmPayload : CreatePayload := ⟨"S1", none, "osm", 0, "", "clone", 1⟩

/-- A clone payload referencing scenario 9 of project 1. -/
def clonePayload : CreatePayload := ⟨"S1", none, "clone", 9, "", "clone", 9⟩

theorem handler_precondition_failures_witness :
    handler false emptyState 1 osmPayload ""
        = ⟨emptyState, .error .projectNotFound, none, none⟩
    ∧ handler false pendingProjectState 1 osmPayload ""
        = ⟨pendingProjectState, .error (.dataConflict "Project setup not completed"),
           none, none⟩
    ∧ handler false activeProjectState 1 clonePayload ""
        = ⟨activeProjectState,
           .error (.scenarioNotFound "Source scenario for cloning not found"),
           none, none⟩
    ∧ duplicateHandler false emptyState 1 1
        = ⟨emptyState, .error (.scenarioNotFound "Scenario not found"), none, none⟩ :=
  ⟨(handler_precondition_failures false emptyState 1 1 osmPayload "").1 (by decide),
   (handler_precondition_failures false pendingProjectState 1 1 osmPayload "").2.1
      ⟨1, "pending"⟩ (by decide) (by decide),
   (handler_precondition_failures false activeProjectState 1 1 clonePayload "").2.2.1
      ⟨1, "active"⟩ (by decide) (by decide) (by decide) (by decide),
   (handler_precondition_failures false emptyState 1 1 osmPayload "").2.2.2 (by decide)⟩

/-- C8: a `scenarios_project_id_name_unique` violation on the scenario insert
becomes `DataConflictError('Scenario name already in use for this project:
<name>')`, with no Operation started and no runner dispatched and the state
unchanged; an insert error carrying any other constraint is re-thrown
unchanged. -/
theorem handler_name_conflict (testMode : Bool) (st : DBState) (pid : Nat)
    (pl : CreatePayload) (un : String) (pr : ProjectRow) :
    (st.projects.find? (fun q => q.id == pid) = some pr →
      (pr.status == "pending") = false →
      (pl.rnSource == "clone"
        && !(st.scenarios.any fun s =>
              s.id == pl.rnSourceScenarioId && s.project_id == pid)) = false →
      (st.scenarios.any fun s => s.project_id == pid && s.name == pl.name) = true →
      handler testMode st pid pl un
        = ⟨st, .error (.dataConflict
              ("Scenario name already in use for this project: " ++ pl.name)),
           none, none⟩) ∧
    (∀ e : DBError, e.constraint ≠ "scenarios_project_id_name_unique" →
      mapInsertErr pl.name e = .dbErr e) := by
  refine ⟨fun hf hst hcl hname => ?_, fun e he => ?_⟩
  · simp [handler, hf, hst, hcl, handlerStep2, insertScenario, hname, mapInsertErr]
  · simp [mapInsertErr, he]

/-- Project 1 active, scenario `S1` already present. -/
def takenNameState : DBState :=
  ⟨[⟨1, "active"⟩], [⟨3, 1, "S1", "", "active", true⟩], [], [], [], 5, 0⟩

theorem handler_name_conflict_witness :
    handler false takenNameState 1 osmPayload ""
      = ⟨takenNameState,
         .error (.dataConflict "Scenario name already in use for this project: S1"),
         none, none⟩
    ∧ mapInsertErr "S1" ⟨"scenarios_pkey", "duplicate key"⟩
      = .dbErr ⟨"scenarios_pkey", "duplicate key"⟩ :=
  ⟨(handler_name_conflict false takenNameState 1 osmPayload "" ⟨1, "active"⟩).1
      (by decide) (by decide) (by decide) (by decide),
   (handler_name_conflict false takenNameState 1 osmPayload "" ⟨1, "active"⟩).2
      ⟨"scenarios_pkey", "duplicate key"⟩ (by decide)⟩

/-! ## Inversion of a successful handler run -/

/-- The scenario row the handler inserts. -/
def newScRow (st : DBState) (pid : Nat) (pl : CreatePayload) : ScenarioRow :=
  ⟨st.nextScenarioId, pid, pl.name, pl.description.getD "", "pending", false⟩

/-- The state right after the scenario insert succeeded. -/
def insertedState (st : DBState) (pid : Nat) (pl : CreatePayload) : DBState :=
  { st with
    scenarios := st.scenarios ++ [newScRow st pid pl]
    nextScenarioId := st.nextScenarioId + 1 }

theorem insertScenario_ok_inv (st : DBState) (pid : Nat) (pl : CreatePayload)
    (pr2 : DBState × ScenarioRow) (h : insertScenario st pid pl = .ok pr2) :
    (st.scenarios.any fun s => s.project_id == pid && s.name == pl.name) = false
    ∧ pr2 = (insertedState st pid pl, newScRow st pid pl) := by
  unfold insertScenario at h
  by_cases ha : (st.scenarios.any fun s => s.project_id == pid && s.name == pl.name) = true
  · simp [ha] at h
  · rw [Bool.not_eq_true] at ha
    simp only [ha, Bool.false_eq_true, if_false] at h
    exact ⟨ha, by simpa [insertedState, newScRow] using h.symm⟩

/-- `startOperation` never touches the project/scenario tables. -/
theorem startOperation_preserves (st : DBState) (p s : Nat) :
    (startOperation st p s).1.scenarios = st.scenarios
    ∧ (startOperation st p s).1.scenariosSettings = st.scenariosSettings
    ∧ (startOperation st p s).1.projects = st.projects
    ∧ (startOperation st p s).1.nextScenarioId = st.nextScenarioId := by
  unfold startOperation startOperationFromLoad
  cases hc : startOperationCheck st (loadByData st "scenario-create" p s) <;>
    simp [startOperationCont, opStart, opLog]

/-- Inverting a successful `startOperation`. -/
theorem startOperation_ok_inv (st : DBState) (p s : Nat) (st' : DBState) (oid : Nat)
    (h : startOperation st p s = (st', .ok oid)) :
    st' = (startOperationCont st p s).1 ∧ oid = st.nextOperationId := by
  cases hc : startOperationCheck st (loadByData st "scenario-create" p s) with
  | some e => simp [startOperation, startOperationFromLoad, hc] at h
  | none =>
      simp [startOperation, startOperationFromLoad, hc, startOperationCont_id] at h
      exact ⟨h.1.symm, h.2.symm⟩

/-- Full inversion of a successful create-handler run: the reply is the
freshly inserted row with the zeroed `data` object and empty `admin_areas`,
the Operation start ran on the state holding the new scenario and its
settings, and the dispatch is whatever `createScenario` produced for the
current mode. -/
theorem handler_ok_inv (testMode : Bool) (st : DBState) (pid : Nat) (pl : CreatePayload)
    (un : String) (r : ScenarioReply)
    (h : (handler testMode st pid pl un).result = .ok r) :
    ∃ st3 oid,
      r = ⟨newScRow st pid pl, 0, 0, []⟩
      ∧ handler testMode st pid pl un
          = ⟨st3, .ok r, some oid,
             createScenario testMode pid (newScRow st pid pl).id oid
               (buildServiceData pl un)⟩
      ∧ startOperation (insertSettings (insertedState st pid pl) (newScRow st pid pl).id)
          pid (newScRow st pid pl).id = (st3, .ok oid)
      ∧ (st.scenarios.any fun s => s.project_id == pid && s.name == pl.name) = false := by
  unfold handler at h
  cases hf : st.projects.find? (fun q => q.id == pid) with
  | none => rw [hf] at h; simp at h
  | some pr =>
      rw [hf] at h
      by_cases hst : (pr.status == "pending") = true
      · simp [hst] at h
      · rw [Bool.not_eq_true] at hst
        simp only [hst, Bool.false_eq_true, if_false] at h
        by_cases hcl : (pl.rnSource == "clone"
            && !(st.scenarios.any fun s =>
                  s.id == pl.rnSourceScenarioId && s.project_id == pid)) = true
        · simp [hcl] at h
        · rw [Bool.not_eq_true] at hcl
          simp only [hcl, Bool.false_eq_true, if_false] at h
          unfold handlerStep2 at h
          cases hins : insertScenario st pid pl with
          | error e => rw [hins] at h; simp at h
          | ok pr2 =>
              obtain ⟨hname, hpr2⟩ := insertScenario_ok_inv st pid pl pr2 hins
              rw [hins] at h
              subst hpr2
              simp only at h
              cases hso : startOperation
                  (insertSettings (insertedState st pid pl) (newScRow st pid pl).id)
                  pid (newScRow st pid pl).id with
              | mk st3 res =>
                  cases res with
                  | error e => rw [hso] at h; simp at h
                  | ok oid =>
                      rw [hso] at h
                      simp only [Except.ok.injEq] at h
                      refine ⟨st3, oid, h.symm, ?_, rfl, hname⟩
                      simp [handler, hf, hst, hcl, handlerStep2, hins, hso, h]

theorem isStartedL_startEntries (n : Nat) : isStartedL (startEntries n) = true := by
  simp [startEntries, isStartedL, isCompletedL, isTerminalEvent]

theorem isCompletedL_startEntries (n : Nat) : isCompletedL (startEntries n) = false := by
  simp [startEntries, isCompletedL, isTerminalEvent]

/-- The settings insert touches neither the operation tables nor the
counters they use. -/
theorem insertSettings_inserted_ops (st : DBState) (pid : Nat) (pl : CreatePayload)
    (k : Nat) :
    (insertSettings (insertedState st pid pl) k).operationsLogs = st.operationsLogs
    ∧ (insertSettings (insertedState st pid pl) k).nextOperationId
        = st.nextOperationId := by
  simp [insertSettings, insertedState]

/-- C3: with the dry-run/test flag set (`process.env.DS_ENV === 'test'`),
`createScenario` dispatches no Service Runner at all, so after a successful
handler run the started Operation stays started: `isStarted()` is true and
`isCompleted()` is false. -/
theorem testMode_skips_dispatch (st : DBState) (pid : Nat) (pl : CreatePayload)
    (un : String) (p s o : Nat) (d : ServiceData) :
    createScenario true p s o d = none
    ∧ (LogsFresh st → ∀ r oid, (handler true st pid pl un).result = .ok r →
        (handler true st pid pl un).opId = some oid →
        (handler true st pid pl un).dispatched = none
        ∧ isStartedL (logsOf (handler true st pid pl un).state oid) = true
        ∧ isCompletedL (logsOf (handler true st pid pl un).state oid) = false) := by
  refine ⟨rfl, fun hfresh r oid h hop => ?_⟩
  obtain ⟨st3, oid', hr, heq, hso, -⟩ := handler_ok_inv true st pid pl un r h
  rw [heq] at hop
  simp only [Option.some.injEq] at hop
  subst hop
  obtain ⟨hst3, hoid⟩ := startOperation_ok_inv _ _ _ _ _ hso
  have hlogsEq := (insertSettings_inserted_ops st pid pl (newScRow st pid pl).id).1
  have hnextEq := (insertSettings_inserted_ops st pid pl (newScRow st pid pl).id).2
  have hfresh' : LogsFresh (insertSettings (insertedState st pid pl) (newScRow st pid pl).id) := by
    intro l hl
    rw [hlogsEq] at hl
    rw [hnextEq]
    exact hfresh l hl
  have hlogs := logsOf_fresh _ hfresh' pid (newScRow st pid pl).id
  subst hst3
  subst hoid
  rw [heq]
  exact ⟨rfl,
    by rw [hlogs]; exact isStartedL_startEntries _,
    by rw [hlogs]; exact isCompletedL_startEntries _⟩

theorem testMode_skips_dispatch_witness :
    createScenario true 1 5 0 (buildServiceData osmPayload "") = none
    ∧ (handler true activeProjectState 1 osmPayload "").dispatched = none
    ∧ isStartedL (logsOf (handler true activeProjectState 1 osmPayload "").state 0) = true
    ∧ isCompletedL (logsOf (handler true activeProjectState 1 osmPayload "").state 0) = false := by
  have h := (testMode_skips_dispatch activeProjectState 1 osmPayload "" 1 5 0
      (buildServiceData osmPayload "")).2
    (by intro l hl; simp [activeProjectState] at hl)
    ⟨⟨5, 1, "S1", "", "pending", false⟩, 0, 0, []⟩ 0 (by decide) (by decide)
  exact ⟨rfl, h.1, h.2.1, h.2.2⟩

/-- C6: the value replied to the caller is fixed at dispatch time — it is the
same whatever completion signal the job later delivers — and on a successful
non-test run the handler has already dispatched the Service Runner carrying
the created scenario's id, without waiting for its completion. -/
theorem reply_independent_of_job (st : DBState) (pid : Nat) (pl : CreatePayload)
    (un : String) (e e' : Option String) (r : ScenarioReply) :
    (processCreate false st pid pl un e).2 = (processCreate false st pid pl un e').2
    ∧ ((handler false st pid pl un).result = .ok r →
        ∃ oid, (handler false st pid pl un).opId = some oid
          ∧ (handler false st pid pl un).dispatched
              = some ⟨"scenario-create", pid, r.row.id, oid, buildServiceData pl un⟩) := by
  refine ⟨rfl, fun h => ?_⟩
  obtain ⟨st3, oid, hr, heq, -, -⟩ := handler_ok_inv false st pid pl un r h
  refine ⟨oid, ?_, ?_⟩
  · rw [heq]
  · rw [heq]
    subst hr
    simp [createScenario, newScRow]

theorem reply_independent_of_job_witness :
    (processCreate false activeProjectState 1 osmPayload "" (some "disk full")).2
      = (processCreate false activeProjectState 1 osmPayload "" none).2
    ∧ ∃ oid, (handler false activeProjectState 1 osmPayload "").opId = some oid
        ∧ (handler false activeProjectState 1 osmPayload "").dispatched
            = some ⟨"scenario-create", 1,
                (⟨⟨5, 1, "S1", "", "pending", false⟩, 0, 0, []⟩ : ScenarioReply).row.id,
                oid, buildServiceData osmPayload ""⟩ :=
  ⟨(reply_independent_of_job activeProjectState 1 osmPayload "" (some "disk full") none
      ⟨⟨5, 1, "S1", "", "pending", false⟩, 0, 0, []⟩).1,
   (reply_independent_of_job activeProjectState 1 osmPayload "" (some "disk full") none
      ⟨⟨5, 1, "S1", "", "pending", false⟩, 0, 0, []⟩).2 (by decide)⟩

/-- All existing settings rows mention scenario ids strictly below the
auto-increment counter — true of any state the store actually produced. -/
def SettingsFresh (st : DBState) : Prop :=
  ∀ x ∈ st.scenariosSettings, x.scenario_id < st.nextScenarioId

/-- C10: every scenario the create handler persists has status `pending` and
`master = false`; exactly the three settings rows `res_gen_at = 0`,
`rn_updated_at = 0`, `admin_areas = '[]'` are inserted for it; and the reply
carries `data = {res_gen_at: 0, rn_updated_at: 0}` and an empty
`admin_areas`. -/
theorem handler_persists_pending_scenario (testMode : Bool) (st : DBState) (pid : Nat)
    (pl : CreatePayload) (un : String) (r : ScenarioReply)
    (hfresh : SettingsFresh st)
    (h : (handler testMode st pid pl un).result = .ok r) :
    r.row.status = "pending" ∧ r.row.master = false
    ∧ r.res_gen_at = 0 ∧ r.rn_updated_at = 0 ∧ r.admin_areas = []
    ∧ (handler testMode st pid pl un).state.scenariosSettings.filter
        (fun x => x.scenario_id == r.row.id) = settingsRows r.row.id
    ∧ r.row ∈ (handler testMode st pid pl un).state.scenarios := by
  obtain ⟨st3, oid, hr, heq, hso, -⟩ := handler_ok_inv testMode st pid pl un r h
  have hpres := startOperation_preserves
    (insertSettings (insertedState st pid pl) (newScRow st pid pl).id)
    pid (newScRow st pid pl).id
  rw [hso] at hpres
  simp only at hpres
  have hsets : st3.scenariosSettings
      = st.scenariosSettings ++ settingsRows st.nextScenarioId := by
    rw [hpres.2.1]
    simp [insertSettings, insertedState, newScRow]
  have hscen : st3.scenarios = st.scenarios ++ [newScRow st pid pl] := by
    rw [hpres.1]
    simp [insertSettings, insertedState]
  have hnil : st.scenariosSettings.filter
      (fun x => x.scenario_id == st.nextScenarioId) = [] := by
    refine List.filter_eq_nil_iff.mpr fun x hx => ?_
    have := hfresh x hx
    simp [Nat.ne_of_lt this]
  subst hr
  rw [heq]
  refine ⟨rfl, rfl, rfl, rfl, rfl, ?_, ?_⟩
  · simp only [newScRow]
    rw [hsets, List.filter_append, hnil]
    simp [settingsRows]
  · rw [hscen]
    simp [newScRow]

theorem handler_persists_pending_scenario_witness :
    ((⟨⟨5, 1, "S1", "", "pending", false⟩, 0, 0, []⟩ : ScenarioReply).row.status = "pending")
    ∧ (⟨⟨5, 1, "S1", "", "pending", false⟩, 0, 0, []⟩ : ScenarioReply).row.master = false
    ∧ (⟨⟨5, 1, "S1", "", "pending", false⟩, 0, 0, []⟩ : ScenarioReply).res_gen_at = 0
    ∧ (⟨⟨5, 1, "S1", "", "pending", false⟩, 0, 0, []⟩ : ScenarioReply).rn_updated_at = 0
    ∧ (⟨⟨5, 1, "S1", "", "pending", false⟩, 0, 0, []⟩ : ScenarioReply).admin_areas = []
    ∧ (handler false activeProjectState 1 osmPayload "").state.scenariosSettings.filter
        (fun x => x.scenario_id
          == (⟨⟨5, 1, "S1", "", "pending", false⟩, 0, 0, []⟩ : ScenarioReply).row.id)
        = settingsRows (⟨⟨5, 1, "S1", "", "pending", false⟩, 0, 0, []⟩ : ScenarioReply).row.id
    ∧ (⟨⟨5, 1, "S1", "", "pending", false⟩, 0, 0, []⟩ : ScenarioReply).row
        ∈ (handler false activeProjectState 1 osmPayload "").state.scenarios :=
  handler_persists_pending_scenario false activeProjectState 1 osmPayload ""
    ⟨⟨5, 1, "S1", "", "pending", false⟩, 0, 0, []⟩
    (by intro x hx; simp [activeProjectState] at hx) (by decide)

/-! ## The operation-log invariant (C7) -/

/-- A nonempty log opens with a `start` event. -/
def headIsStart : List OpLogRow → Prop
  | [] => True
  | e :: _ => e.event = "start"

/-- Every entry except possibly the last one is non-terminal: once a terminal
entry exists it is the last entry. -/
def terminalIsLast (L : List OpLogRow) : Prop :=
  ∀ l ∈ L.dropLast, isTerminalEvent l.event = false

/-- The store invariant the orchestration maintains: fresh id counters,
every operation has a nonempty log, every log opens with `start`, and a
terminal entry is only ever the last entry. -/
def OpInv (st : DBState) : Prop :=
  LogsFresh st
  ∧ (∀ o ∈ st.operations, o.id < st.nextOperationId)
  ∧ (∀ o ∈ st.operations, logsOf st o.id ≠ [])
  ∧ (∀ opId, headIsStart (logsOf st opId))
  ∧ (∀ opId, terminalIsLast (logsOf st opId))

/-- The transitions of the orchestration subsystem that can touch the
operation tables: a successful `startOperation`, a Service Runner completion
signal, and whole create/duplicate route runs (whose scenario/settings
inserts leave the operation tables alone). -/
inductive SysStep : DBState → DBState → Prop where
  | start (st st' : DBState) (p s oid : Nat)
      (h : startOperation st p s = (st', .ok oid)) : SysStep st st'
  | complete (st : DBState) (oid : Nat) (err : Option String) :
      SysStep st (completionHandler oid err st)
  | createRoute (testMode : Bool) (st : DBState) (pid : Nat) (pl : CreatePayload)
      (un : String) : SysStep st (handler testMode st pid pl un).state
  | duplicateRoute (testMode : Bool) (st : DBState) (pid scId : Nat) :
      SysStep st (duplicateHandler testMode st pid scId).state

theorem logsOf_next_nil (st : DBState) (h : LogsFresh st) :
    logsOf st st.nextOperationId = [] := by
  refine List.filter_eq_nil_iff.mpr fun l hl => ?_
  have := h l hl
  simp [Nat.ne_of_lt this]

theorem logsOf_cont (st : DBState) (p s k : Nat) :
    logsOf (startOperationCont st p s).1 k
      = logsOf st k
        ++ (startEntries st.nextOperationId).filter (fun l => l.operation_id == k) := by
  unfold logsOf
  rw [startOperationCont_logs, List.filter_append]

theorem logsOf_opLog_self (st : DBState) (k : Nat) (e : String) (d : LogData) :
    logsOf (opLog st k e d) k = logsOf st k ++ [⟨k, e, d⟩] := by
  simp [logsOf, opLog, List.filter_append]

theorem logsOf_opLog_other (st : DBState) (k : Nat) (e : String) (d : LogData)
    (k' : Nat) (h : k ≠ k') : logsOf (opLog st k e d) k' = logsOf st k' := by
  simp [logsOf, opLog, List.filter_append, h]

theorem headIsStart_append_left (L M : List OpLogRow) (hne : L ≠ [])
    (h : headIsStart L) : headIsStart (L ++ M) := by
  cases L with
  | nil => exact absurd rfl hne
  | cons a t => exact h

/-- The invariant only reads the operation tables. -/
theorem OpInv_congr (st st' : DBState) (hops : st'.operations = st.operations)
    (hlogs : st'.operationsLogs = st.operationsLogs)
    (hnext : st'.nextOperationId = st.nextOperationId) (h : OpInv st) : OpInv st' := by
  obtain ⟨h1, h2, h3, h4, h5⟩ := h
  have hl : ∀ k, logsOf st' k = logsOf st k := fun k => by
    unfold logsOf
    rw [hlogs]
  refine ⟨?_, ?_, ?_, ?_, ?_⟩
  · intro l hlm
    rw [hlogs] at hlm
    rw [hnext]
    exact h1 l hlm
  · intro o ho
    rw [hops] at ho
    rw [hnext]
    exact h2 o ho
  · intro o ho
    rw [hops] at ho
    rw [hl]
    exact h3 o ho
  · intro k
    rw [hl]
    exact h4 k
  · intro k
    rw [hl]
    exact h5 k

theorem OpInv_start (st : DBState) (p s : Nat) (hInv : OpInv st) :
    OpInv (startOperationCont st p s).1 := by
  obtain ⟨h1, h2, h3, h4, h5⟩ := hInv
  refine ⟨?_, ?_, ?_, ?_, ?_⟩
  · intro l hl
    rw [startOperationCont_logs] at hl
    rw [startOperationCont_nextOp]
    rcases List.mem_append.mp hl with hm | hm
    · exact Nat.lt_succ_of_lt (h1 l hm)
    · simp [startEntries] at hm
      rcases hm with hm | hm <;> subst hm <;> exact Nat.lt_succ_self _
  · intro o ho
    rw [startOperationCont_operations] at ho
    rw [startOperationCont_nextOp]
    rcases List.mem_append.mp ho with hm | hm
    · exact Nat.lt_succ_of_lt (h2 o hm)
    · simp at hm
      subst hm
      exact Nat.lt_succ_self _
  · intro o ho
    rw [startOperationCont_operations] at ho
    rw [logsOf_cont]
    rcases List.mem_append.mp ho with hm | hm
    · intro hc
      exact h3 o hm (List.append_eq_nil.mp hc).1
    · simp at hm
      subst hm
      simp [startEntries]
  · intro k
    rw [logsOf_cont]
    by_cases hk : k = st.nextOperationId
    · subst hk
      rw [logsOf_next_nil st h1]
      simp [startEntries, headIsStart]
    · have hne : (st.nextOperationId == k) = false := by
        simp only [beq_eq_false_iff_ne, ne_eq]
        exact fun hh => hk hh.symm
      have hfil : (startEntries st.nextOperationId).filter
          (fun l => l.operation_id == k) = [] := by
        simp [startEntries, hne]
      rw [hfil, List.append_nil]
      exact h4 k
  · intro k
    rw [logsOf_cont]
    by_cases hk : k = st.nextOperationId
    · subst hk
      rw [logsOf_next_nil st h1]
      simp [startEntries, terminalIsLast, isTerminalEvent]
    · have hne : (st.nextOperationId == k) = false := by
        simp only [beq_eq_false_iff_ne, ne_eq]
        exact fun hh => hk hh.symm
      have hfil : (startEntries st.nextOperationId).filter
          (fun l => l.operation_id == k) = [] := by
        simp [startEntries, hne]
      rw [hfil, List.append_nil]
      exact h5 k

theorem OpInv_complete (st : DBState) (oid : Nat) (err : Option String)
    (hInv : OpInv st) : OpInv (completionHandler oid err st) := by
  obtain ⟨h1, h2, h3, h4, h5⟩ := hInv
  cases err with
  | none => exact ⟨h1, h2, h3, h4, h5⟩
  | some msg =>
      cases hload : loadById st oid with
      | error e => simpa [completionHandler, hload] using ⟨h1, h2, h3, h4, h5⟩
      | ok op =>
          have hmem : op ∈ st.operations ∧ op.id = oid := by
            unfold loadById at hload
            cases hf : st.operations.find? (fun o => o.id == oid) with
            | none => simp [hf] at hload
            | some o =>
                simp [hf] at hload
                subst hload
                exact ⟨List.mem_of_find?_eq_some hf, by simpa using List.find?_some hf⟩
          obtain ⟨hopmem, hopid⟩ := hmem
          by_cases hc : isCompletedL (logsOf st op.id) = true
          · simpa [completionHandler, hload, hc] using ⟨h1, h2, h3, h4, h5⟩
          · have hch : completionHandler oid (some msg) st
                = opLog st op.id "error" (.errorInfo msg) := by
              simp [completionHandler, hload, hc, opFinish]
            rw [Bool.not_eq_true] at hc
            rw [hch]
            have hterm : ∀ l ∈ logsOf st op.id, isTerminalEvent l.event = false := by
              intro l hl
              have := List.any_eq_false.mp hc
              simpa using this l hl
            refine ⟨?_, ?_, ?_, ?_, ?_⟩
            · intro l hl
              simp only [opLog] at hl ⊢
              rcases List.mem_append.mp hl with hm | hm
              · exact h1 l hm
              · simp at hm
                subst hm
                exact h2 op hopmem
            · intro o ho
              simp only [opLog] at ho ⊢
              exact h2 o ho
            · intro o ho
              simp only [opLog] at ho
              by_cases hk : op.id = o.id
              · rw [← hk, logsOf_opLog_self]
                simp
              · rw [logsOf_opLog_other st op.id _ _ _ hk]
                exact h3 o ho
            · intro k
              by_cases hk : op.id = k
              · subst hk
                rw [logsOf_opLog_self]
                exact headIsStart_append_left _ _ (h3 op hopmem) (h4 op.id)
              · rw [logsOf_opLog_other st op.id _ _ _ hk]
                exact h4 k
            · intro k
              by_cases hk : op.id = k
              · subst hk
                rw [logsOf_opLog_self]
                intro l hl
                rw [List.dropLast_concat] at hl
                exact hterm l hl
              · rw [logsOf_opLog_other st op.id _ _ _ hk]
                exact h5 k

theorem startOperation_error_inv (st : DBState) (p s : Nat) (st' : DBState)
    (e : AppError) (h : startOperation st p s = (st', .error e)) : st' = st := by
  cases hc : startOperationCheck st (loadByData st "scenario-create" p s) with
  | some e' =>
      simp [startOperation, startOperationFromLoad, hc] at h
      exact h.1.symm
  | none => simp [startOperation, startOperationFromLoad, hc] at h

theorem OpInv_startOperation_fst (st : DBState) (p s : Nat) (hInv : OpInv st) :
    OpInv (startOperation st p s).1 := by
  cases hres : startOperation st p s with
  | mk st' res =>
      cases res with
      | error e => rw [startOperation_error_inv st p s st' e hres]; exact hInv
      | ok oid =>
          obtain ⟨hst', -⟩ := startOperation_ok_inv _ _ _ _ _ hres
          rw [hst']
          exact OpInv_start st p s hInv

/-- The create handler leaves the state alone on its error paths and
otherwise leaves exactly the state of the embedded `startOperation` run. -/
theorem handler_state_cases (testMode : Bool) (st : DBState) (pid : Nat)
    (pl : CreatePayload) (un : String) :
    (handler testMode st pid pl un).state = st
    ∨ (handler testMode st pid pl un).state
        = (startOperation (insertSettings (insertedState st pid pl)
            (newScRow st pid pl).id) pid (newScRow st pid pl).id).1 := by
  unfold handler
  cases hf : st.projects.find? (fun q => q.id == pid) with
  | none => left; rfl
  | some pr =>
      by_cases hst : (pr.status == "pending") = true
      · left
        simp [hst]
      · rw [Bool.not_eq_true] at hst
        simp only [hst, Bool.false_eq_true, if_false]
        by_cases hcl : (pl.rnSource == "clone"
            && !(st.scenarios.any fun s =>
                  s.id == pl.rnSourceScenarioId && s.project_id == pid)) = true
        · left
          simp [hcl]
        · rw [Bool.not_eq_true] at hcl
          simp only [hcl, Bool.false_eq_true, if_false]
          unfold handlerStep2
          cases hins : insertScenario st pid pl with
          | error e => left; rfl
          | ok pr2 =>
              obtain ⟨-, hpr2⟩ := insertScenario_ok_inv st pid pl pr2 hins
              subst hpr2
              right
              simp only
              cases hso : startOperation (insertSettings (insertedState st pid pl)
                  (newScRow st pid pl).id) pid (newScRow st pid pl).id with
              | mk st3 res => cases res <;> rfl

theorem OpInv_handler (testMode : Bool) (st : DBState) (pid : Nat) (pl : CreatePayload)
    (un : String) (hInv : OpInv st) : OpInv (handler testMode st pid pl un).state := by
  rcases handler_state_cases testMode st pid pl un with h | h <;> rw [h]
  · exact hInv
  · apply OpInv_startOperation_fst
    refine OpInv_congr _ st ?_ ?_ ?_ hInv <;> simp [insertSettings, insertedState]

theorem OpInv_duplicate (testMode : Bool) (st : DBState) (pid scId : Nat)
    (hInv : OpInv st) : OpInv (duplicateHandler testMode st pid scId).state := by
  unfold duplicateHandler
  cases hf : st.scenarios.find? (fun s => s.id == scId && s.project_id == pid) with
  | none => exact hInv
  | some src => exact OpInv_handler testMode st pid _ "" hInv

theorem OpInv_step {a b : DBState} (h : SysStep a b) (hInv : OpInv a) : OpInv b := by
  cases h with
  | start _ _ p s oid hso =>
      obtain ⟨hst', -⟩ := startOperation_ok_inv _ _ _ _ _ hso
      rw [hst']
      exact OpInv_start a p s hInv
  | complete _ oid err => exact OpInv_complete a oid err hInv
  | createRoute tm _ pid pl un => exact OpInv_handler tm a pid pl un hInv
  | duplicateRoute tm _ pid scId => exact OpInv_duplicate tm a pid scId hInv

/-- C7: from any state satisfying the store invariant, every reachable state
still satisfies it — every operation's log opens with the `start` event and a
terminal entry is only ever the last entry — and any successful
`startOperation` produces an operation whose log is exactly the `start`
identity entry immediately followed by the
`log('start', {message: 'Operation started'})` entry, with nothing in
between. -/
theorem operation_log_invariant (st0 st : DBState) (hInv : OpInv st0)
    (hsteps : Relation.ReflTransGen SysStep st0 st) :
    OpInv st
    ∧ (∀ p s st' oid, startOperation st p s = (st', .ok oid) →
        logsOf st' oid = startEntries oid) := by
  have hOp : OpInv st := by
    induction hsteps with
    | refl => exact hInv
    | tail hab hbc ih => exact OpInv_step hbc ih
  refine ⟨hOp, fun p s st' oid h => ?_⟩
  obtain ⟨hst', hoid⟩ := startOperation_ok_inv _ _ _ _ _ h
  subst hst'
  subst hoid
  exact logsOf_fresh st hOp.1 p s

theorem operation_log_invariant_witness :
    OpInv (startOperation emptyState 1 1).1
    ∧ (∀ p s st' oid,
        startOperation (startOperation emptyState 1 1).1 p s = (st', .ok oid) →
        logsOf st' oid = startEntries oid) :=
  operation_log_invariant emptyState (startOperation emptyState 1 1).1
    ⟨fun l hl => absurd hl (List.not_mem_nil l),
     fun o ho => absurd ho (List.not_mem_nil o),
     fun o ho => absurd ho (List.not_mem_nil o),
     fun _ => trivial,
     fun _ l hl => absurd hl (List.not_mem_nil l)⟩
    (Relation.ReflTransGen.single
      (SysStep.start emptyState (startOperation emptyState 1 1).1 1 1 0 (by decide)))

/-! ## Correctness of the duplicate route's name search (C9) -/

theorem toDecimalAux_roundtrip :
    ∀ fuel n, n ≤ fuel → fromDigits (toDecimalAux fuel n) = n := by
  intro fuel
  induction fuel with
  | zero =>
      intro n hn
      have h0 : n = 0 := Nat.le_zero.mp hn
      subst h0
      rfl
  | succ fuel ih =>
      intro n hn
      cases n with
      | zero => rfl
      | succ m =>
          have hdiv : (m + 1) / 10 ≤ fuel := by
            have := Nat.div_lt_self (Nat.succ_pos m) (by norm_num : 1 < 10)
            omega
          show fromDigits ((m + 1) % 10 :: toDecimalAux fuel ((m + 1) / 10)) = m + 1
          simp only [fromDigits]
          rw [ih _ hdiv]
          exact Nat.mod_add_div (m + 1) 10

theorem fromDigits_natDigits (n : Nat) : fromDigits (natDigits n) = n :=
  toDecimalAux_roundtrip n n (Nat.le_refl n)

theorem natDigits_inj {a b : Nat} (h : natDigits a = natDigits b) : a = b := by
  have hc := congrArg fromDigits h
  rwa [fromDigits_natDigits, fromDigits_natDigits] at hc

theorem toDecimalAux_lt10 : ∀ fuel n, ∀ d ∈ toDecimalAux fuel n, d < 10 := by
  intro fuel
  induction fuel with
  | zero => intro n d hd; simp [toDecimalAux] at hd
  | succ fuel ih =>
      intro n d hd
      cases n with
      | zero => simp [toDecimalAux] at hd
      | succ m =>
          simp only [toDecimalAux, List.mem_cons] at hd
          rcases hd with hd | hd
          · subst hd
            exact Nat.mod_lt _ (by norm_num)
          · exact ih _ d hd

theorem digitChar_inj_lt10 :
    ∀ a < 10, ∀ b < 10, Nat.digitChar a = Nat.digitChar b → a = b := by decide

theorem digitChar_zero_of : ∀ d < 10, Nat.digitChar d = '0' → d = 0 := by decide

theorem map_digitChar_inj :
    ∀ (l l' : List Nat), (∀ x ∈ l, x < 10) → (∀ x ∈ l', x < 10) →
      l.map Nat.digitChar = l'.map Nat.digitChar → l = l' := by
  intro l
  induction l with
  | nil =>
      intro l' _ _ h
      cases l' with
      | nil => rfl
      | cons a t => simp at h
  | cons a t ih =>
      intro l' hb hb' h
      cases l' with
      | nil => simp at h
      | cons a' t' =>
          simp only [List.map_cons, List.cons.injEq] at h
          have ha := digitChar_inj_lt10 a (hb a (by simp)) a' (hb' a' (by simp)) h.1
          have ht := ih t' (fun x hx => hb x (by simp [hx]))
            (fun x hx => hb' x (by simp [hx])) h.2
          rw [ha, ht]

theorem string_ext (s t : String) (h : s.data = t.data) : s = t := by
  cases s
  cases t
  exact congrArg String.mk h

theorem natDigits_eq_zero_list {b : Nat} (h : natDigits b = [0]) : b = 0 := by
  have hr := fromDigits_natDigits b
  rw [h] at hr
  simp [fromDigits] at hr
  omega

theorem natToString_eq_zero {b : Nat} (h : natToString b = "0") : b = 0 := by
  by_cases hb : b = 0
  · exact hb
  · exfalso
    rw [natToString, if_neg hb] at h
    have hd : (natDigits b).reverse.map Nat.digitChar = ['0'] := congrArg String.data h
    cases hr : (natDigits b).reverse with
    | nil => rw [hr] at hd; simp at hd
    | cons d t =>
        rw [hr] at hd
        simp only [List.map_cons, List.cons.injEq] at hd
        have hdm : d ∈ natDigits b := List.mem_reverse.mp (by rw [hr]; simp)
        have hd10 : d < 10 := toDecimalAux_lt10 b b d hdm
        have hd0 : d = 0 := digitChar_zero_of d hd10 hd.1
        have ht : t = [] := List.map_eq_nil_iff.mp hd.2
        have hlist : natDigits b = [0] := by
          rw [← List.reverse_reverse (natDigits b), hr, hd0, ht]
          rfl
        exact hb (natDigits_eq_zero_list hlist)

theorem natToString_inj {a b : Nat} (h : natToString a = natToString b) : a = b := by
  by_cases ha : a = 0
  · subst ha
    exact (natToString_eq_zero h.symm).symm
  · by_cases hb : b = 0
    · subst hb
      exact natToString_eq_zero h
    · rw [natToString, if_neg ha, natToString, if_neg hb] at h
      have hd : (natDigits a).reverse.map Nat.digitChar
          = (natDigits b).reverse.map Nat.digitChar := by injection h
      have hrev := map_digitChar_inj _ _
        (fun x hx => toDecimalAux_lt10 a a x (List.mem_reverse.mp hx))
        (fun x hx => toDecimalAux_lt10 b b x (List.mem_reverse.mp hx)) hd
      exact natDigits_inj (List.reverse_inj.mp hrev)

theorem dupName_inj (nm : String) {x y : Nat} (h : dupName nm x = dupName nm y) :
    x = y := by
  have hd := congrArg String.data h
  simp only [dupName, String.data_append] at hd
  have h1 := List.append_cancel_right hd
  have h2 := List.append_cancel_left h1
  exact natToString_inj (string_ext _ _ h2)

/-- Pigeonhole: among `|scenarios| + 1` consecutive candidate names at least
one is not taken, because the candidates are pairwise distinct and each taken
one consumes a distinct scenario row of the project. -/
theorem exists_free_name (st : DBState) (pid : Nat) (nm : String) (no : Nat) :
    ∃ k, k ≤ st.scenarios.length
      ∧ nameTaken st pid (dupName nm (no + k)) = false := by
  by_contra hc
  push_neg at hc
  have htaken : ∀ k, k ≤ st.scenarios.length →
      nameTaken st pid (dupName nm (no + k)) = true := by
    intro k hk
    simpa using hc k hk
  have hnodup : ((List.range (st.scenarios.length + 1)).map
      (fun k => dupName nm (no + k))).Nodup := by
    refine (List.nodup_range _).map ?_
    intro x y hxy
    have := dupName_inj nm hxy
    omega
  have hsub : ∀ x ∈ (List.range (st.scenarios.length + 1)).map
      (fun k => dupName nm (no + k)), x ∈ st.scenarios.map (fun s => s.name) := by
    intro x hx
    simp only [List.mem_map, List.mem_range] at hx
    obtain ⟨k, hk, rfl⟩ := hx
    have hany := htaken k (by omega)
    unfold nameTaken at hany
    simp only [List.any_eq_true, Bool.and_eq_true, beq_iff_eq] at hany
    obtain ⟨s, hs, -, hname⟩ := hany
    simp only [List.mem_map]
    exact ⟨s, hs, hname⟩
  have h1 : ((List.range (st.scenarios.length + 1)).map
      (fun k => dupName nm (no + k))).toFinset.card = st.scenarios.length + 1 := by
    rw [List.toFinset_card_of_nodup hnodup, List.length_map, List.length_range]
  have h2 : ((List.range (st.scenarios.length + 1)).map
        (fun k => dupName nm (no + k))).toFinset
      ⊆ (st.scenarios.map (fun s => s.name)).toFinset := by
    intro x hx
    exact List.mem_toFinset.mpr (hsub x (List.mem_toFinset.mp hx))
  have h3 := Finset.card_le_card h2
  have h4 : (st.scenarios.map (fun s => s.name)).toFinset.card
      ≤ st.scenarios.length := by
    calc (st.scenarios.map (fun s => s.name)).toFinset.card
        ≤ (st.scenarios.map (fun s => s.name)).length := List.toFinset_card_le _
      _ = st.scenarios.length := List.length_map _ _
  omega

theorem findNameAux_spec (st : DBState) (pid : Nat) (nm : String) :
    ∀ fuel no,
      (∃ k, k < fuel ∧ nameTaken st pid (dupName nm (no + k)) = false) →
      nameTaken st pid (dupName nm (findNameAux st pid nm fuel no)) = false
      ∧ no ≤ findNameAux st pid nm fuel no
      ∧ ∀ m, no ≤ m → m < findNameAux st pid nm fuel no →
          nameTaken st pid (dupName nm m) = true := by
  intro fuel
  induction fuel with
  | zero =>
      intro no hex
      obtain ⟨k, hk, -⟩ := hex
      exact absurd hk (Nat.not_lt_zero k)
  | succ fuel ih =>
      intro no hex
      by_cases ht : nameTaken st pid (dupName nm no) = true
      · have hres : findNameAux st pid nm (fuel + 1) no
            = findNameAux st pid nm fuel (no + 1) := by
          simp [findNameAux, ht]
        obtain ⟨k, hk, hfree⟩ := hex
        have hk0 : k ≠ 0 := by
          intro h0
          subst h0
          rw [Nat.add_zero] at hfree
          rw [hfree] at ht
          simp at ht
        obtain ⟨k', rfl⟩ := Nat.exists_eq_succ_of_ne_zero hk0
        have hex' : ∃ j, j < fuel
            ∧ nameTaken st pid (dupName nm ((no + 1) + j)) = false := by
          refine ⟨k', by omega, ?_⟩
          rw [show no + 1 + k' = no + (k' + 1) by omega]
          exact hfree
        obtain ⟨hfree', hle', hmin'⟩ := ih (no + 1) hex'
        rw [hres]
        refine ⟨hfree', by omega, ?_⟩
        intro m hm1 hm2
        by_cases hmeq : m = no
        · subst hmeq
          exact ht
        · exact hmin' m (by omega) hm2
      · rw [Bool.not_eq_true] at ht
        have hres : findNameAux st pid nm (fuel + 1) no = no := by
          simp [findNameAux, ht]
        rw [hres]
        exact ⟨ht, Nat.le_refl no, fun m hm1 hm2 => absurd hm2 (by omega)⟩

/-- `findName` returns the candidate with the least suffix `n ≥ 2` whose name
is not yet used in the project. -/
theorem findName_least (st : DBState) (pid : Nat) (nm : String) :
    ∃ n0, 2 ≤ n0 ∧ findName st pid nm = dupName nm n0
      ∧ nameTaken st pid (dupName nm n0) = false
      ∧ ∀ m, 2 ≤ m → m < n0 → nameTaken st pid (dupName nm m) = true := by
  obtain ⟨k, hk, hfree⟩ := exists_free_name st pid nm 2
  obtain ⟨h1, h2, h3⟩ := findNameAux_spec st pid nm (st.scenarios.length + 1) 2
    ⟨k, by omega, hfree⟩
  exact ⟨findNameAux st pid nm (st.scenarios.length + 1) 2, h2, rfl, h1, h3⟩

/-- C9: the duplicate route names the copy `'<source name> (n)'` with `n` the
least integer `≥ 2` whose candidate name is not already used by a scenario of
the project, and fails with `ScenarioNotFoundError` when the source scenario
does not exist in the project. -/
theorem duplicate_name_least_and_missing (testMode : Bool) (st : DBState)
    (pid scId : Nat) (src : ScenarioRow) (r : ScenarioReply) :
    (st.scenarios.find? (fun s => s.id == scId && s.project_id == pid) = some src →
      (∃ n0, 2 ≤ n0 ∧ findName st pid src.name = dupName src.name n0
        ∧ nameTaken st pid (dupName src.name n0) = false
        ∧ ∀ m, 2 ≤ m → m < n0 → nameTaken st pid (dupName src.name m) = true)
      ∧ ((duplicateHandler testMode st pid scId).result = .ok r →
          r.row.name = findName st pid src.name))
    ∧ (st.scenarios.find? (fun s => s.id == scId && s.project_id == pid) = none →
        (duplicateHandler testMode st pid scId).result
          = .error (.scenarioNotFound "Scenario not found")) := by
  constructor
  · intro hf
    refine ⟨findName_least st pid src.name, fun hok => ?_⟩
    have hd : duplicateHandler testMode st pid scId
        = handler testMode st pid
            ⟨findName st pid src.name, some src.description, "clone", scId, "",
             "clone", scId⟩ "" := by
      simp [duplicateHandler, hf]
    rw [hd] at hok
    obtain ⟨st3, oid, hr, -, -, -⟩ := handler_ok_inv _ _ _ _ _ _ hok
    rw [hr]
    rfl
  · intro hf
    simp [duplicateHandler, hf]

/-- Project 1 with one master scenario named `Main`. -/
def dupState : DBState :=
  ⟨[⟨1, "active"⟩], [⟨1, 1, "Main", "", "active", true⟩], [], [], [], 5, 0⟩

theorem duplicate_name_least_and_missing_witness :
    ((∃ n0, 2 ≤ n0 ∧ findName dupState 1 "Main" = dupName "Main" n0
        ∧ nameTaken dupState 1 (dupName "Main" n0) = false
        ∧ ∀ m, 2 ≤ m → m < n0 → nameTaken dupState 1 (dupName "Main" m) = true)
      ∧ ((duplicateHandler false dupState 1 1).result
            = .ok ⟨⟨5, 1, findName dupState 1 "Main", "", "pending", false⟩, 0, 0, []⟩ →
          (⟨⟨5, 1, findName dupState 1 "Main", "", "pending", false⟩, 0, 0, []⟩ :
              ScenarioReply).row.name = findName dupState 1 "Main"))
    ∧ (duplicateHandler false emptyState 1 1).result
        = .error (.scenarioNotFound "Scenario not found") :=
  ⟨(duplicate_name_least_and_missing false dupState 1 1
      ⟨1, 1, "Main", "", "active", true⟩
      ⟨⟨5, 1, findName dupState 1 "Main", "", "pending", false⟩, 0, 0, []⟩).1 (by decide),
   (duplicate_name_least_and_missing false emptyState 1 1
      ⟨1, 1, "Main", "", "active", true⟩
      ⟨⟨5, 1, findName dupState 1 "Main", "", "pending", false⟩, 0, 0, []⟩).2 (by decide)⟩
